import Mathlib

/-!
Shallow embedding of the multi-region dashboard (src/app) in Lean 4.

Conventions of the embedding:
* Python floats carrying latencies / metrics are modelled as `ℚ`.
* `round(x, 2)` is modelled by `round2`, rounding to the nearest multiple of
  1/100 (Python ties to even; all theorems below only use that the result is
  the value of a round-to-nearest function, which both tie rules satisfy).
* Randomness (`random.uniform`, `random.randint`) is passed in as explicit
  parameters, constrained by hypotheses matching the documented ranges.
* `await`-ed external effects (acquiring a pool connection, running a query)
  are passed in as `Except`-valued outcomes: `Except.error e` models a raised
  exception whose `str()` is `e`.
* A Python dict is modelled as a partial map; the flag store
  `_demo_flags : dict` becomes `FlagStore := String → Option FlagVal`.
* FastAPI responses are modelled by small inductive types, one constructor
  per syntactic `return` site of the handler.
-/

namespace Dashboard

/-- `round(x, 2)`: round to the nearest multiple of 1/100. -/
def round2 (x : ℚ) : ℚ := (round (x * 100) : ℚ) / 100

-- ===========================================================
-- app/config.py
-- ===========================================================

/-- The process environment (`os.getenv`): maps a variable name to its
value, `none` when unset. -/
def Env := String → Option String

/-- `RegionConfig` from app/config.py (the `dsn` property reads the
environment, so it takes an `Env` argument here). -/
structure RegionConfig where
  name : String
  role : String
  env_key : String
  color : String
deriving DecidableEq, Repr

/-- The `dsn` property: `os.getenv(self.env_key)`. -/
def RegionConfig.dsn (cfg : RegionConfig) (env : Env) : Option String :=
  env cfg.env_key

/-- The `us-east` entry of `REGIONS`. -/
def us_east_config : RegionConfig :=
  { name := "US East (Virginia)", role := "PRIMARY",
    env_key := "AIVEN_PG_US_EAST", color := "#10b981" }

/-- The `eu-west` entry of `REGIONS`. -/
def eu_west_config : RegionConfig :=
  { name := "EU West (Ireland)", role := "REPLICA",
    env_key := "AIVEN_PG_EU_WEST", color := "#3b82f6" }

/-- The `asia-pacific` entry of `REGIONS`. -/
def asia_pacific_config : RegionConfig :=
  { name := "Asia Pacific (Singapore)", role := "REPLICA",
    env_key := "AIVEN_PG_ASIA_PACIFIC", color := "#f59e0b" }

/-- `REGIONS` registry, in insertion order (Python dicts preserve it). -/
def REGIONS : List (String × RegionConfig) :=
  [ ("us-east", us_east_config),
    ("eu-west", eu_west_config),
    ("asia-pacific", asia_pacific_config) ]

/-- `region_id in REGIONS` / `REGIONS[region_id]`. -/
def regions_get (region_id : String) : Option RegionConfig :=
  (REGIONS.find? (fun p => p.1 = region_id)).map Prod.snd

/-- `DEFAULTS["load_test_concurrent"]`. -/
def load_test_concurrent : ℕ := 10

-- ===========================================================
-- app/database.py : data classes
-- ===========================================================

/-- `ConnectionResult` dataclass. -/
structure ConnectionResult where
  success : Bool
  latency_ms : ℚ := 0
  server_ip : String := ""
  server_port : ℕ := 0
  backend_pid : ℕ := 0
  database : String := ""
  pg_version : String := ""
  error : String := ""
deriving DecidableEq, Repr

/-- `HealthMetrics` dataclass. -/
structure HealthMetrics where
  cache_hit_ratio : ℚ := 0
  active_connections : ℕ := 0
  max_connections : ℕ := 0
  db_size_mb : ℚ := 0
deriving DecidableEq, Repr

/-- `LoadTestResult` dataclass. -/
structure LoadTestResult where
  concurrent : ℕ
  min_ms : ℚ
  max_ms : ℚ
  avg_ms : ℚ
  results : List ℚ
deriving DecidableEq, Repr

-- ===========================================================
-- app/database.py : test_connection
-- ===========================================================

/-- The row returned by the `SELECT inet_server_addr() ...` query in
`test_connection`; each column may be SQL NULL. -/
structure ServerInfoRow where
  server_ip : Option String
  server_port : Option ℕ
  backend_pid : Option ℕ
  database : Option String
  pg_version : Option String
deriving DecidableEq, Repr

/-- `test_connection(region_id)`.  `pool` is `db_manager.get_pool(region_id)`
(`none` when absent); `query` is the outcome of acquiring a connection and
running the info query, paired with the measured elapsed milliseconds:
`Except.error e` models any exception caught by the handler, with `str(e) = e`. -/
def test_connection (pool : Option Unit) (query : Except String (ServerInfoRow × ℚ)) :
    ConnectionResult :=
  match pool with
  | none => { success := false, error := "No connection pool available" }
  | some _ =>
    match query with
    | .error e => { success := false, error := e }
    | .ok (row, latency_ms) =>
      { success := true
        latency_ms := round2 latency_ms
        server_ip := row.server_ip.getD ""
        server_port := row.server_port.getD 0
        backend_pid := row.backend_pid.getD 0
        database := row.database.getD ""
        pg_version := row.pg_version.getD "" }

-- ===========================================================
-- app/database.py : get_health_metrics
-- ===========================================================

/-- Row of the cache-hit-ratio query (the single column may be NULL). -/
structure CacheRow where
  cache_hit_ratio : Option ℚ
deriving DecidableEq, Repr

/-- Row of the connection-count query. -/
structure ConnRow where
  active_connections : Option ℕ
  max_connections : Option ℕ
deriving DecidableEq, Repr

/-- Row of the database-size query. -/
structure SizeRow where
  db_size_mb : Option ℚ
deriving DecidableEq, Repr

/-- `get_health_metrics(region_id)`.  The three queries run in order on one
acquired connection; `Except.error` on any of them models an exception, which
the handler converts to `None`.  If an earlier query fails the later outcomes
are irrelevant (the code never runs them). -/
def get_health_metrics (pool : Option Unit)
    (q1 : Except String CacheRow) (q2 : Except String ConnRow)
    (q3 : Except String SizeRow) : Option HealthMetrics :=
  match pool with
  | none => none
  | some _ =>
    match q1 with
    | .error _ => none
    | .ok cache_row =>
      match q2 with
      | .error _ => none
      | .ok conn_row =>
        match q3 with
        | .error _ => none
        | .ok size_row =>
          some { cache_hit_ratio := cache_row.cache_hit_ratio.getD 0
                 active_connections := conn_row.active_connections.getD 0
                 max_connections := conn_row.max_connections.getD 0
                 db_size_mb := round2 (size_row.db_size_mb.getD 0) }

-- ===========================================================
-- app/database.py : run_load_test
-- ===========================================================

/-- `isinstance(r, (int, float))` filter over the gathered outcomes:
keep successful latencies, drop exceptions. -/
def valid_results (outcomes : List (Except String ℚ)) : List ℚ :=
  outcomes.filterMap (fun r => match r with | .ok t => some t | .error _ => none)

/-- `min(l)` over a nonempty list given as head and tail. -/
def list_min (t : ℚ) (ts : List ℚ) : ℚ := ts.foldl min t

/-- `max(l)` over a nonempty list given as head and tail. -/
def list_max (t : ℚ) (ts : List ℚ) : ℚ := ts.foldl max t

/-- `run_load_test(region_id, concurrent)`.  `outcomes` are the results of
`asyncio.gather(*tasks, return_exceptions=True)`: one entry per task, each a
latency in ms or a captured exception. -/
def run_load_test (pool : Option Unit) (concurrent : ℕ)
    (outcomes : List (Except String ℚ)) : Option LoadTestResult :=
  match pool with
  | none => none
  | some _ =>
    match valid_results outcomes with
    | [] => none
    | t :: ts =>
      some { concurrent := concurrent
             min_ms := round2 (list_min t ts)
             max_ms := round2 (list_max t ts)
             avg_ms := round2 ((t :: ts).sum / (t :: ts).length)
             results := (t :: ts).map round2 }

-- ===========================================================
-- app/feature_flags.py
-- ===========================================================

/-- A value stored in the `_demo_flags` dict: a Python bool or int. -/
inductive FlagVal where
  | b : Bool → FlagVal
  | i : Int → FlagVal
deriving DecidableEq, Repr

/-- Python truthiness of a flag value (`if not is_region_enabled(...)`). -/
def FlagVal.truthy : FlagVal → Bool
  | .b v => v
  | .i n => n != 0

/-- The in-process flag store (a Python dict, modelled as a partial map). -/
def FlagStore := String → Option FlagVal

/-- The initial `_demo_flags` dict. -/
def demo_flags_init : FlagStore := fun k =>
  if k = "region-us-east-enabled" then some (.b true)
  else if k = "region-eu-west-enabled" then some (.b true)
  else if k = "region-asia-pacific-enabled" then some (.b true)
  else if k = "enable-health-checks" then some (.b true)
  else if k = "enable-load-testing" then some (.b true)
  else if k = "dashboard-refresh-seconds" then some (.i 30)
  else none

/-- The optional LaunchDarkly client: `variation flag_key user_key default`. -/
structure LDClient where
  variation : String → String → Bool → Bool

/-- `is_region_enabled(region_id, user_key)` over a flag store:
`_demo_flags.get(flag_key, True)` in demo mode / without a client,
otherwise a LaunchDarkly evaluation with default `True`. -/
def is_region_enabled (demo_mode : Bool) (ld : Option LDClient) (flags : FlagStore)
    (region_id user_key : String) : Bool :=
  let flag_key := "region-" ++ region_id ++ "-enabled"
  match demo_mode, ld with
  | true, _ => ((flags flag_key).getD (.b true)).truthy
  | false, none => ((flags flag_key).getD (.b true)).truthy
  | false, some c => c.variation flag_key user_key true

/-- `is_feature_enabled(feature, user_key)`: key `enable-` + feature with
`_` replaced by `-`. -/
def is_feature_enabled (demo_mode : Bool) (ld : Option LDClient) (flags : FlagStore)
    (feature user_key : String) : Bool :=
  let flag_key := "enable-" ++ (feature.replace "_" "-")
  match demo_mode, ld with
  | true, _ => ((flags flag_key).getD (.b true)).truthy
  | false, none => ((flags flag_key).getD (.b true)).truthy
  | false, some c => c.variation flag_key user_key true

/-- `toggle_demo_flag(flag_key)`: flips a present boolean flag and reports
`True`; otherwise reports `False` and leaves the store untouched.  Returned
as (report, updated store) since the Python version mutates `_demo_flags`. -/
def toggle_demo_flag (flags : FlagStore) (flag_key : String) : Bool × FlagStore :=
  match flags flag_key with
  | some (.b v) => (true, fun k => if k = flag_key then some (.b (!v)) else flags k)
  | _ => (false, flags)

-- ===========================================================
-- app/routers/api.py : demo-mode simulators
-- ===========================================================

/-- The `base_latency` dict lookup with default 100 in `simulate_connection`. -/
def base_latency (region_id : String) : ℚ :=
  if region_id = "us-east" then 25
  else if region_id = "eu-west" then 120
  else if region_id = "asia-pacific" then 180
  else 100

/-- The random inputs consumed by `simulate_connection`: `u` is
`random.uniform(-10, 20)`, `o1 o2 o3` the IP octets, `pid` the backend pid. -/
structure SimInput where
  u : ℚ
  o1 : ℕ := 1
  o2 : ℕ := 1
  o3 : ℕ := 1
  pid : ℕ := 10000
deriving DecidableEq, Repr

/-- `simulate_connection(region_id)` with its randomness made explicit. -/
def simulate_connection (region_id : String) (rnd : SimInput) : ConnectionResult :=
  { success := true
    latency_ms := round2 (base_latency region_id + rnd.u)
    server_ip := "10." ++ toString rnd.o1 ++ "." ++ toString rnd.o2 ++ "." ++ toString rnd.o3
    server_port := 6543
    backend_pid := rnd.pid
    database := "defaultdb"
    pg_version := "PostgreSQL 16.2" }

/-- The list comprehension of `simulate_load_test`:
`[round(base + random.uniform(-5, 30) + (i * 1.5), 2) for i in range(concurrent)]`,
with the uniform draws `us` made explicit (one per `i`). -/
def simulate_samples (region_id : String) (concurrent : ℕ) (us : List ℚ) : List ℚ :=
  ((List.range concurrent).zip us).map
    (fun p => round2 (base_latency region_id + p.2 + p.1 * (3 / 2)))

/-- `simulate_load_test(region_id, concurrent)` with the per-call jitter
`us : List ℚ` (`random.uniform(-5, 30)`, one draw per `i`) made explicit;
models the demo branch of the load-test endpoint (on the empty sample list
Python's `min([])` would raise, modelled as `none`). -/
def simulate_load_test (region_id : String) (concurrent : ℕ) (us : List ℚ) :
    Option LoadTestResult :=
  match simulate_samples region_id concurrent us with
  | [] => none
  | t :: ts =>
    some { concurrent := concurrent
           min_ms := list_min t ts
           max_ms := list_max t ts
           avg_ms := round2 ((t :: ts).sum / (t :: ts).length)
           results := t :: ts }

-- ===========================================================
-- app/routers/api.py : endpoint handlers
-- ===========================================================

/-- Python truthiness of an optional DSN string (`not REGIONS[rid].dsn`):
unset and empty are both falsy. -/
def dsn_truthy : Option String → Bool
  | none => false
  | some s => s != ""

/-- The message literals returned by the handlers. -/
def unknown_region_html : String := "<div class=\"text-red-400\">❌ Unknown region</div>"

/-- `region_health` feature-flag refusal fragment. -/
def health_disabled_html : String := "<div class=\"text-amber-400\">⚠️ Health checks disabled</div>"

/-- `region_health` region-flag refusal fragment. -/
def region_disabled_html : String := "<div class=\"text-amber-400\">⚠️ Region disabled</div>"

/-- `region_health` generic failure fragment. -/
def metrics_failed_html : String := "<div class=\"text-red-400\">❌ Failed to fetch metrics</div>"

/-- Response of `POST /regions/{region_id}/test`, one constructor per
`return` site of `test_region`. -/
inductive TestRegionResponse where
  | html : String → TestRegionResponse
  | region_disabled : RegionConfig → TestRegionResponse
  | connection_result : RegionConfig → ConnectionResult → TestRegionResponse
deriving DecidableEq, Repr

/-- `test_region(region_id, request)`.  External inputs: the environment
(for DSNs), demo mode, the optional LD client, the flag store, the simulator
randomness, and, for the real path, the pool and query outcome consumed by
`test_connection`. -/
def test_region (env : Env) (demo_mode : Bool) (ld : Option LDClient)
    (flags : FlagStore) (region_id user_key : String) (rnd : SimInput)
    (pool : Option Unit) (query : Except String (ServerInfoRow × ℚ)) :
    TestRegionResponse :=
  match regions_get region_id with
  | none => .html unknown_region_html
  | some region =>
    if !is_region_enabled demo_mode ld flags region_id user_key then
      .region_disabled region
    else if demo_mode || !dsn_truthy (region.dsn env) then
      .connection_result region (simulate_connection region_id rnd)
    else
      .connection_result region (test_connection pool query)

/-- Sort key of `test_all_regions`:
`x[1].latency_ms if x[1].success else float('inf')`. -/
def sort_key (x : String × ConnectionResult) : WithTop ℚ :=
  if x.2.success then (x.2.latency_ms : WithTop ℚ) else ⊤

/-- The comparison `sorted` performs on items via their keys.  Python's
`sorted` is a stable comparison sort; it is modelled by a stable sort
(`List.insertionSort`) under this relation. -/
def latency_le (a b : String × ConnectionResult) : Prop :=
  sort_key a ≤ sort_key b

instance : DecidableRel latency_le := fun a b =>
  inferInstanceAs (Decidable (sort_key a ≤ sort_key b))

instance : IsTotal (String × ConnectionResult) latency_le :=
  ⟨fun _ _ => le_total _ _⟩

instance : IsTrans (String × ConnectionResult) latency_le :=
  ⟨fun _ _ _ => le_trans⟩

/-- Response of `POST /regions/test-all`. -/
inductive AllRegionsResponse where
  | html : String → AllRegionsResponse
  | all_results : List (String × ConnectionResult) → AllRegionsResponse
deriving DecidableEq, Repr

/-- `test_all_regions(request)`.  `rnd` and `real` give, per region id, the
simulator randomness and the pool/query outcome of the real path. -/
def test_all_regions (env : Env) (demo_mode : Bool) (ld : Option LDClient)
    (flags : FlagStore) (user_key : String) (rnd : String → SimInput)
    (real : String → Option Unit × Except String (ServerInfoRow × ℚ)) :
    AllRegionsResponse :=
  let enabled := (REGIONS.map Prod.fst).filter
    (fun rid => is_region_enabled demo_mode ld flags rid user_key)
  if enabled.isEmpty then
    .html "<div class=\"text-amber-400\">⚠️ No regions enabled</div>"
  else
    let results := enabled.map (fun rid =>
      (rid,
        match regions_get rid with
        | none => simulate_connection rid (rnd rid)
        | some region =>
          if demo_mode || !dsn_truthy (region.dsn env) then
            simulate_connection rid (rnd rid)
          else
            test_connection (real rid).1 (real rid).2))
    .all_results (List.insertionSort latency_le results)

/-- Response of `POST /regions/{region_id}/health`. -/
inductive HealthResponse where
  | html : String → HealthResponse
  | metrics : HealthMetrics → HealthResponse
deriving DecidableEq, Repr

/-- `region_health(region_id, request)`.  `sim` is the demo-mode metrics
draw; `pool, q1, q2, q3` feed `get_health_metrics` on the real path. -/
def region_health (env : Env) (demo_mode : Bool) (ld : Option LDClient)
    (flags : FlagStore) (region_id user_key : String) (sim : HealthMetrics)
    (pool : Option Unit) (q1 : Except String CacheRow) (q2 : Except String ConnRow)
    (q3 : Except String SizeRow) : HealthResponse :=
  match regions_get region_id with
  | none => .html unknown_region_html
  | some region =>
    if !is_feature_enabled demo_mode ld flags "health-checks" user_key then
      .html health_disabled_html
    else if !is_region_enabled demo_mode ld flags region_id user_key then
      .html region_disabled_html
    else
      match (if demo_mode || !dsn_truthy (region.dsn env) then some sim
             else get_health_metrics pool q1 q2 q3) with
      | none => .html metrics_failed_html
      | some m => .metrics m

/-- Response of `POST /flags/{flag_key}/toggle`. -/
inductive ToggleResponse where
  | html : String → ToggleResponse
  | flag_panel : FlagStore → ToggleResponse

/-- `toggle_flag(flag_key, request)`: outside demo mode returns an error
fragment; otherwise toggles (ignoring the report) and renders the panel from
the resulting store (`get_demo_flags` returns a copy of it). -/
def toggle_flag (demo_mode : Bool) (flags : FlagStore) (flag_key : String) :
    ToggleResponse :=
  if !demo_mode then .html "<div class=\"text-red-400\">❌ Not in demo mode</div>"
  else .flag_panel (toggle_demo_flag flags flag_key).2

-- ===========================================================
-- Properties of the responses (used to state the claims)
-- ===========================================================

/-- The all-regions response, when it carries results, lists them in
non-decreasing key order with every failed result after every successful
one. -/
def ordered_failed_last : AllRegionsResponse → Prop
  | .html _ => True
  | .all_results l =>
    l.Pairwise latency_le ∧
    l.Pairwise (fun a b => a.2.success = false → b.2.success = false)

/-- The all-regions response, when it carries results, holds exactly one
result per flag-enabled region. -/
def one_result_per_enabled (demo_mode : Bool) (ld : Option LDClient)
    (flags : FlagStore) (user_key : String) : AllRegionsResponse → Prop
  | .html _ => True
  | .all_results l => ∀ rid,
    (l.map Prod.fst).count rid =
      if rid ∈ (REGIONS.map Prod.fst).filter
          (fun r => is_region_enabled demo_mode ld flags r user_key) then 1 else 0

-- ===========================================================
-- Arithmetic facts about round2
-- ===========================================================

theorem round_mono {a b : ℚ} (h : a ≤ b) : round a ≤ round b := by
  rw [round_eq, round_eq]
  exact Int.floor_mono (by linarith)

theorem le_round2 {m : ℤ} {x : ℚ} (h : (m : ℚ) ≤ x) : (m : ℚ) ≤ round2 x := by
  have h1 : ((m * 100 : ℤ) : ℚ) ≤ x * 100 := by push_cast; linarith
  have h2 : (m * 100 : ℤ) ≤ round (x * 100) := by
    calc (m * 100 : ℤ) = round ((m * 100 : ℤ) : ℚ) := (round_intCast _).symm
    _ ≤ round (x * 100) := round_mono h1
  rw [round2, le_div_iff₀ (by norm_num : (0 : ℚ) < 100)]
  exact_mod_cast h2

theorem round2_le {m : ℤ} {x : ℚ} (h : x ≤ (m : ℚ)) : round2 x ≤ (m : ℚ) := by
  have h1 : x * 100 ≤ ((m * 100 : ℤ) : ℚ) := by push_cast; linarith
  have h2 : round (x * 100) ≤ (m * 100 : ℤ) := by
    calc round (x * 100) ≤ round ((m * 100 : ℤ) : ℚ) := round_mono h1
    _ = (m * 100 : ℤ) := round_intCast _
  rw [round2, div_le_iff₀ (by norm_num : (0 : ℚ) < 100)]
  exact_mod_cast h2

/-- Every per-region baseline of the simulator is an integer number of
milliseconds. -/
theorem base_latency_int (region_id : String) :
    ∃ n : ℤ, base_latency region_id = (n : ℚ) := by
  unfold base_latency
  split
  · exact ⟨25, by norm_num⟩
  · split
    · exact ⟨120, by norm_num⟩
    · split
      · exact ⟨180, by norm_num⟩
      · exact ⟨100, by norm_num⟩

-- ===========================================================
-- Concrete fixtures for witnesses
-- ===========================================================

/-- An environment with no variables set: no region has a DSN. -/
def env0 : Env := fun _ => none

/-- Simulator randomness fixed at jitter 0 and default draws. -/
def rnd0 : SimInput := { u := 0 }

/-- The initial store with the `us-east` region flag turned off. -/
def flags_us_east_off : FlagStore := fun k =>
  if k = "region-us-east-enabled" then some (.b false) else demo_flags_init k

-- ===========================================================
-- C4: toggling a boolean flag twice restores the store
-- ===========================================================

/-- C4: for every flag key present in the store with a boolean value,
toggling it twice returns the store to its original state pointwise: the
flag has its original value and every other flag is unchanged (and both
toggles report success). -/
theorem toggle_demo_flag_twice_restores (flags : FlagStore) (flag_key : String)
    (v : Bool) (h : flags flag_key = some (.b v)) :
    (toggle_demo_flag flags flag_key).1 = true ∧
    (toggle_demo_flag (toggle_demo_flag flags flag_key).2 flag_key).1 = true ∧
    ∀ k, (toggle_demo_flag (toggle_demo_flag flags flag_key).2 flag_key).2 k = flags k := by
  have h1 : toggle_demo_flag flags flag_key =
      (true, fun k => if k = flag_key then some (.b (!v)) else flags k) := by
    unfold toggle_demo_flag
    rw [h]
  have h2 : toggle_demo_flag (toggle_demo_flag flags flag_key).2 flag_key =
      (true, fun k => if k = flag_key then some (.b (!(!v)))
                      else if k = flag_key then some (.b (!v)) else flags k) := by
    rw [h1]
    unfold toggle_demo_flag
    simp
  refine ⟨by rw [h1], by rw [h2], fun k => ?_⟩
  rw [h2]
  by_cases hk : k = flag_key
  · subst hk
    simp [h, Bool.not_not]
  · simp [hk]

/-- C4 witness: toggling `enable-health-checks` twice in the initial demo
store restores every flag. -/
theorem toggle_demo_flag_twice_restores_witness :
    (toggle_demo_flag demo_flags_init "enable-health-checks").1 = true ∧
    (toggle_demo_flag (toggle_demo_flag demo_flags_init "enable-health-checks").2
        "enable-health-checks").1 = true ∧
    ∀ k, (toggle_demo_flag (toggle_demo_flag demo_flags_init "enable-health-checks").2
        "enable-health-checks").2 k = demo_flags_init k :=
  toggle_demo_flag_twice_restores demo_flags_init "enable-health-checks" true rfl

-- ===========================================================
-- C10: toggling an absent or non-boolean flag is a no-op
-- ===========================================================

/-- C10: for every flag key absent from the store or mapped to a non-boolean
value, `toggle_demo_flag` reports failure and leaves the store unchanged,
and the toggle endpoint still responds with the (unchanged) flag panel. -/
theorem toggle_absent_or_int_flag_noop (flags : FlagStore) (flag_key : String)
    (h : flags flag_key = none ∨ ∃ n : Int, flags flag_key = some (.i n)) :
    toggle_demo_flag flags flag_key = (false, flags) ∧
    toggle_flag true flags flag_key = .flag_panel flags := by
  have hval : toggle_demo_flag flags flag_key = (false, flags) := by
    unfold toggle_demo_flag
    rcases h with h | ⟨n, h⟩ <;> rw [h]
  exact ⟨hval, by unfold toggle_flag; rw [hval]; simp⟩

/-- C10 witness: toggling the integer flag `dashboard-refresh-seconds` in the
initial demo store fails, leaves the store as it was, and the endpoint still
renders the panel. -/
theorem toggle_absent_or_int_flag_noop_witness :
    toggle_demo_flag demo_flags_init "dashboard-refresh-seconds" = (false, demo_flags_init) ∧
    toggle_flag true demo_flags_init "dashboard-refresh-seconds" = .flag_panel demo_flags_init :=
  toggle_absent_or_int_flag_noop demo_flags_init "dashboard-refresh-seconds"
    (Or.inr ⟨30, rfl⟩)

-- ===========================================================
-- C5: test_connection never raises; error reporting
-- ===========================================================

/-- C5 counterexample: a query failure whose exception has an empty `str()`
(e.g. `asyncio.TimeoutError()` from the 5-second command timeout) yields
`success=False` with an EMPTY error string, refuting the claim that every
failure carries a non-empty error string. -/
theorem test_connection_empty_error_cex :
    (test_connection (some ()) (Except.error "")).success = false ∧
    (test_connection (some ()) (Except.error "")).error = "" :=
  ⟨rfl, rfl⟩

/-- C5 (amended): `test_connection` is total — every outcome is returned as a
`ConnectionResult`, never an exception.  A missing pool yields `success=False`
with the fixed non-empty message; a query error yields `success=False` with
the exception's text as the error string (which is empty exactly when that
text is); and `success=True` holds exactly when the pool exists and the
query succeeded. -/
theorem test_connection_spec_amended (pool : Option Unit)
    (query : Except String (ServerInfoRow × ℚ)) :
    (pool = none →
      test_connection pool query =
        { success := false, error := "No connection pool available" } ∧
      (test_connection pool query).error ≠ "")
  ∧ (∀ e, pool = some () → query = Except.error e →
      (test_connection pool query).success = false ∧
      (test_connection pool query).error = e)
  ∧ ((test_connection pool query).success = true ↔
      pool = some () ∧ ∃ v, query = Except.ok v) := by
  cases pool with
  | none =>
    refine ⟨fun _ => ⟨rfl, ?_⟩, ?_, ?_⟩
    · simp [test_connection]
    · intro e hpe
      cases hpe
    · constructor
      · intro hs
        simp [test_connection] at hs
      · rintro ⟨h1, -⟩
        cases h1
  | some u =>
    cases u
    cases query with
    | error e =>
      refine ⟨?_, ?_, ?_⟩
      · intro hp
        cases hp
      · intro e' _ he
        cases he
        exact ⟨rfl, rfl⟩
      · constructor
        · intro hs
          simp [test_connection] at hs
        · rintro ⟨-, v, hv⟩
          cases hv
    | ok v =>
      refine ⟨?_, ?_, ?_⟩
      · intro hp
        cases hp
      · intro e' _ he
        cases he
      · exact ⟨fun _ => ⟨rfl, v, rfl⟩, fun _ => rfl⟩

-- ===========================================================
-- C6: health metrics are all-or-nothing
-- ===========================================================

/-- C6: `get_health_metrics` returns either `none` (missing pool or any
failed query) or a complete record assembled from all three query rows; it
never returns a partial record. -/
theorem get_health_metrics_all_or_nothing (pool : Option Unit)
    (q1 : Except String CacheRow) (q2 : Except String ConnRow)
    (q3 : Except String SizeRow) :
    (∀ m, get_health_metrics pool q1 q2 q3 = some m →
      ∃ c n s, q1 = Except.ok c ∧ q2 = Except.ok n ∧ q3 = Except.ok s ∧
        m = { cache_hit_ratio := c.cache_hit_ratio.getD 0,
              active_connections := n.active_connections.getD 0,
              max_connections := n.max_connections.getD 0,
              db_size_mb := round2 (s.db_size_mb.getD 0) })
  ∧ ((pool = none ∨ (∃ e, q1 = Except.error e) ∨ (∃ e, q2 = Except.error e) ∨
        (∃ e, q3 = Except.error e)) →
      get_health_metrics pool q1 q2 q3 = none) := by
  cases pool with
  | none => exact ⟨fun m hm => (nomatch hm), fun _ => rfl⟩
  | some u =>
    cases u
    cases q1 with
    | error e => exact ⟨fun m hm => (nomatch hm), fun _ => rfl⟩
    | ok c =>
      cases q2 with
      | error e => exact ⟨fun m hm => (nomatch hm), fun _ => rfl⟩
      | ok n =>
        cases q3 with
        | error e => exact ⟨fun m hm => (nomatch hm), fun _ => rfl⟩
        | ok s =>
          refine ⟨fun m hm => ⟨c, n, s, rfl, rfl, rfl, ?_⟩, fun h => ?_⟩
          · cases hm; rfl
          · rcases h with h | ⟨e, he⟩ | ⟨e, he⟩ | ⟨e, he⟩
            · cases h
            all_goals cases he

-- ===========================================================
-- C3: load test returns at most K samples, nothing on total failure
-- ===========================================================

/-- C3: a load test at concurrency `K` (one gathered outcome per call)
returns a result with at most `K` latency samples — failed calls are
discarded first — and returns `none` when every call failed; the demo-mode
simulator likewise never yields more than `K` samples. -/
theorem run_load_test_at_most_K (pool : Option Unit) (K : ℕ)
    (outcomes : List (Except String ℚ)) (h : outcomes.length = K) :
    (∀ r, run_load_test pool K outcomes = some r → r.results.length ≤ K)
  ∧ ((∀ o ∈ outcomes, ∃ e, o = Except.error e) →
      run_load_test pool K outcomes = none)
  ∧ (∀ region_id us r, simulate_load_test region_id K us = some r →
      r.results.length ≤ K) := by
  refine ⟨?_, ?_, ?_⟩
  · intro r hr
    cases pool with
    | none => cases hr
    | some u =>
      cases u
      unfold run_load_test at hr
      rcases hv : valid_results outcomes with _ | ⟨t, ts⟩ <;> rw [hv] at hr
      · cases hr
      · have hr' := Option.some_inj.mp hr
        rw [← hr']
        show ((t :: ts).map round2).length ≤ K
        rw [List.length_map]
        calc (t :: ts).length = (valid_results outcomes).length := by rw [hv]
        _ ≤ outcomes.length := List.length_filterMap_le _ _
        _ = K := h
  · intro hall
    have hv : valid_results outcomes = [] := by
      unfold valid_results
      rw [List.filterMap_eq_nil_iff]
      intro o ho
      obtain ⟨e, he⟩ := hall o ho
      rw [he]
    cases pool with
    | none => rfl
    | some u =>
      cases u
      unfold run_load_test
      rw [hv]
  · intro region_id us r hr
    unfold simulate_load_test at hr
    rcases hs : simulate_samples region_id K us with _ | ⟨t, ts⟩ <;> rw [hs] at hr
    · cases hr
    · have hr' := Option.some_inj.mp hr
      rw [← hr']
      show (t :: ts).length ≤ K
      calc (t :: ts).length = (simulate_samples region_id K us).length := by rw [hs]
      _ ≤ K := by
          unfold simulate_samples
          rw [List.length_map, List.length_zip, List.length_range]
          exact min_le_left _ _

/-- C3 witness: a two-call load test in which both calls raise returns
nothing. -/
theorem run_load_test_at_most_K_witness :
    run_load_test (some ()) 2 [Except.error "boom", Except.error "slow"] = none :=
  (run_load_test_at_most_K (some ()) 2 [Except.error "boom", Except.error "slow"] rfl).2.1
    (by
      intro o ho
      rcases List.mem_cons.mp ho with h | h
      · exact ⟨"boom", h⟩
      · rcases List.mem_cons.mp h with h' | h'
        · exact ⟨"slow", h'⟩
        · cases h')

-- ===========================================================
-- C2: unset DSN takes the simulator path, inside the jitter band
-- ===========================================================

/-- C2: for every known, flag-enabled region whose DSN environment variable
is unset, `test_region` takes the simulator path, and the simulated result
has `success=True` with latency within the designed jitter band
`[base - 10, base + 20]` around the region's baseline (whenever the uniform
draw lies in its documented range `[-10, 20]`). -/
theorem simulator_path_jitter_band (env : Env) (demo_mode : Bool)
    (ld : Option LDClient) (flags : FlagStore) (region_id user_key : String)
    (region : RegionConfig) (rnd : SimInput) (pool : Option Unit)
    (query : Except String (ServerInfoRow × ℚ))
    (hreg : regions_get region_id = some region)
    (hen : is_region_enabled demo_mode ld flags region_id user_key = true)
    (hdsn : region.dsn env = none)
    (hu1 : -10 ≤ rnd.u) (hu2 : rnd.u ≤ 20) :
    test_region env demo_mode ld flags region_id user_key rnd pool query
      = .connection_result region (simulate_connection region_id rnd)
    ∧ (simulate_connection region_id rnd).success = true
    ∧ base_latency region_id - 10 ≤ (simulate_connection region_id rnd).latency_ms
    ∧ (simulate_connection region_id rnd).latency_ms ≤ base_latency region_id + 20 := by
  obtain ⟨n, hn⟩ := base_latency_int region_id
  have hl : (simulate_connection region_id rnd).latency_ms
      = round2 ((n : ℚ) + rnd.u) := by
    show round2 (base_latency region_id + rnd.u) = _
    rw [hn]
  refine ⟨?_, rfl, ?_, ?_⟩
  · simp [test_region, hreg, hen, hdsn, dsn_truthy]
  · rw [hl, hn]
    calc (n : ℚ) - 10 = ((n - 10 : ℤ) : ℚ) := by push_cast; ring
    _ ≤ round2 ((n : ℚ) + rnd.u) := le_round2 (by push_cast; linarith)
  · rw [hl, hn]
    calc round2 ((n : ℚ) + rnd.u) ≤ ((n + 20 : ℤ) : ℚ) :=
      round2_le (by push_cast; linarith)
    _ = (n : ℚ) + 20 := by push_cast; ring

/-- C2 witness: `us-east` with an empty environment, demo flags, and jitter
draw 0. -/
theorem simulator_path_jitter_band_witness :
    test_region env0 true none demo_flags_init "us-east" "anonymous" rnd0 none
        (Except.error "")
      = .connection_result us_east_config (simulate_connection "us-east" rnd0)
    ∧ (simulate_connection "us-east" rnd0).success = true
    ∧ base_latency "us-east" - 10 ≤ (simulate_connection "us-east" rnd0).latency_ms
    ∧ (simulate_connection "us-east" rnd0).latency_ms ≤ base_latency "us-east" + 20 :=
  simulator_path_jitter_band env0 true none demo_flags_init "us-east" "anonymous"
    us_east_config rnd0 none (Except.error "") rfl rfl rfl
    (by norm_num [rnd0]) (by norm_num [rnd0])

-- ===========================================================
-- C7: a flag-disabled region short-circuits the test endpoint
-- ===========================================================

/-- C7: for every known region whose enabling flag evaluates to false,
`test_region` answers the "disabled" partial; the response is the same for
every simulator draw and every pool/query outcome, so neither the simulator
nor the real connection test influences it. -/
theorem test_region_disabled_short_circuits (env : Env) (demo_mode : Bool)
    (ld : Option LDClient) (flags : FlagStore) (region_id user_key : String)
    (region : RegionConfig) (rnd : SimInput) (pool : Option Unit)
    (query : Except String (ServerInfoRow × ℚ))
    (hreg : regions_get region_id = some region)
    (hdis : is_region_enabled demo_mode ld flags region_id user_key = false) :
    test_region env demo_mode ld flags region_id user_key rnd pool query
      = .region_disabled region := by
  simp [test_region, hreg, hdis]

/-- C7 witness: `us-east` with its region flag off in the store. -/
theorem test_region_disabled_short_circuits_witness :
    test_region env0 true none flags_us_east_off "us-east" "anonymous" rnd0 none
        (Except.error "")
      = .region_disabled us_east_config :=
  test_region_disabled_short_circuits env0 true none flags_us_east_off "us-east"
    "anonymous" us_east_config rnd0 none (Except.error "") rfl rfl

-- ===========================================================
-- C8: the three refusal conditions give three distinct messages
-- ===========================================================

/-- C8: on the health endpoint, an unconfigured (unknown) region, a disabled
health-checks feature, and a disabled region each produce their own fragment;
the three fragments are pairwise different and none equals the endpoint's
generic failure fragment. -/
theorem refusal_messages_distinct (env : Env) (demo_mode : Bool)
    (ld : Option LDClient) (flags : FlagStore) (region_id user_key : String)
    (sim : HealthMetrics) (pool : Option Unit) (q1 : Except String CacheRow)
    (q2 : Except String ConnRow) (q3 : Except String SizeRow) :
    (regions_get region_id = none →
      region_health env demo_mode ld flags region_id user_key sim pool q1 q2 q3
        = .html unknown_region_html)
  ∧ (∀ region, regions_get region_id = some region →
      is_feature_enabled demo_mode ld flags "health-checks" user_key = false →
      region_health env demo_mode ld flags region_id user_key sim pool q1 q2 q3
        = .html health_disabled_html)
  ∧ (∀ region, regions_get region_id = some region →
      is_feature_enabled demo_mode ld flags "health-checks" user_key = true →
      is_region_enabled demo_mode ld flags region_id user_key = false →
      region_health env demo_mode ld flags region_id user_key sim pool q1 q2 q3
        = .html region_disabled_html)
  ∧ (unknown_region_html ≠ health_disabled_html ∧
     unknown_region_html ≠ region_disabled_html ∧
     health_disabled_html ≠ region_disabled_html)
  ∧ (unknown_region_html ≠ metrics_failed_html ∧
     health_disabled_html ≠ metrics_failed_html ∧
     region_disabled_html ≠ metrics_failed_html) := by
  refine ⟨?_, ?_, ?_, ⟨?_, ?_, ?_⟩, ⟨?_, ?_, ?_⟩⟩
  · intro h
    simp [region_health, h]
  · intro region hreg hfeat
    simp [region_health, hreg, hfeat]
  · intro region hreg hfeat hdis
    simp [region_health, hreg, hfeat, hdis]
  all_goals decide

-- ===========================================================
-- C1: all-regions results are sorted, failures last
-- ===========================================================

/-- Under the sort comparison, a failed result (key `⊤`) is never followed by
a successful one. -/
theorem latency_le_success {a b : String × ConnectionResult}
    (h : latency_le a b) (ha : a.2.success = false) : b.2.success = false := by
  unfold latency_le sort_key at h
  rw [ha] at h
  simp only [Bool.false_eq_true, if_false, top_le_iff] at h
  cases hb : b.2.success
  · rfl
  · rw [hb] at h
    simp at h

/-- C1: whatever the flag store, environment and per-region outcomes, the
all-regions response lists its results in non-decreasing key order (failed
results count as infinite latency) and every failed result comes after every
successful one. -/
theorem test_all_regions_ordered (env : Env) (demo_mode : Bool)
    (ld : Option LDClient) (flags : FlagStore) (user_key : String)
    (rnd : String → SimInput)
    (real : String → Option Unit × Except String (ServerInfoRow × ℚ)) :
    ordered_failed_last (test_all_regions env demo_mode ld flags user_key rnd real) := by
  unfold test_all_regions
  dsimp only
  split
  · exact trivial
  · refine ⟨List.sorted_insertionSort latency_le _, ?_⟩
    exact (List.sorted_insertionSort latency_le _).imp
      (fun h ha => latency_le_success h ha)

-- ===========================================================
-- C9: one result per enabled region (supporting theorem; the
-- claimed `asyncio.gather` concurrency is absent from the code)
-- ===========================================================

/-- Counting keys in the sorted association list built from a nodup key
list. -/
theorem count_fst_insertionSort (f : String → ConnectionResult)
    (l : List String) (hl : l.Nodup) (rid : String) :
    ((List.insertionSort latency_le (l.map (fun r => (r, f r)))).map Prod.fst).count rid
      = if rid ∈ l then 1 else 0 := by
  have hperm : List.Perm
      ((List.insertionSort latency_le (l.map (fun r => (r, f r)))).map Prod.fst)
      ((l.map (fun r => (r, f r))).map Prod.fst) :=
    (List.perm_insertionSort latency_le _).map Prod.fst
  rw [hperm.count_eq, List.map_map]
  have hid : (Prod.fst ∘ fun r => (r, f r)) = id := rfl
  rw [hid, List.map_id]
  by_cases hmem : rid ∈ l
  · rw [if_pos hmem]
    exact List.count_eq_one_of_mem hl hmem
  · rw [if_neg hmem]
    exact List.count_eq_zero_of_not_mem hmem

/-- The region identifiers of the registry are pairwise distinct. -/
theorem regions_keys_nodup : (REGIONS.map Prod.fst).Nodup := by decide

/-- C9 (supporting): every flag-enabled region contributes exactly one entry
to the all-regions results, whatever any region's outcome is.  (The
concurrency half of the claim — `asyncio.gather` fan-out — is refuted by the
code, which awaits each region in sequence; see the results record.) -/
theorem test_all_regions_one_result_each (env : Env) (demo_mode : Bool)
    (ld : Option LDClient) (flags : FlagStore) (user_key : String)
    (rnd : String → SimInput)
    (real : String → Option Unit × Except String (ServerInfoRow × ℚ)) :
    one_result_per_enabled demo_mode ld flags user_key
      (test_all_regions env demo_mode ld flags user_key rnd real) := by
  unfold test_all_regions
  dsimp only
  split
  · exact trivial
  · intro rid
    exact count_fst_insertionSort _ _
      (regions_keys_nodup.filter _) rid

end Dashboard
